import Mathlib

/-!
Shallow embedding of the PPM decoder in `src/ppmadapter/__init__.py`
(`class PPMDecoder`): the per-sample processing loop of `feed`, the
end-of-feed joystick emission, and the constructor.  Python floats are
modelled as rationals; the `+inf` / `-inf` initial extrema are modelled
with `Option`; Python `int(...)` truncation toward zero is `ratTrunc`.
-/

namespace PPMAdapter

/-- One output action sent to the uinput sink: either a write of a value
to an absolute-axis code (`self.ev.write(ecodes.EV_ABS, code, value)`)
or the frame-commit call (`self.ev.syn()`). -/
inductive Event where
  | write (code : ℕ) (value : ℤ)
  | syn
  deriving DecidableEq

/-- Persistent decoder state: the fields set in `PPMDecoder.__init__`
that the sample loop reads and writes.  `min_value`/`max_value` are
`none` while still at their `float("+inf")` / `float("-inf")` initial
values.  `history` is the per-channel deque list, indexed by channel
0..5 (the keys of `self.mapping`). -/
structure DecoderState where
  rate : ℚ
  min_value : Option ℚ
  max_value : Option ℚ
  channel : ℕ
  previous_value : Option ℚ
  pulse_start_time : ℚ
  samples_since_pulse : ℕ
  start_pulse_length : ℚ
  average_length : ℕ
  history : List (List ℚ)
  deriving DecidableEq

/-- `min(self.min_value, current_value)` with `min_value` initially `+inf`. -/
def updMin : Option ℚ → ℚ → ℚ
  | none, c => c
  | some m, c => min m c

/-- `max(self.max_value, current_value)` with `max_value` initially `-inf`. -/
def updMax : Option ℚ → ℚ → ℚ
  | none, c => c
  | some m, c => max m c

/-- `threshold = 1/4*self.min_value + 3/4*self.max_value`. -/
def thresholdOf (minv maxv : ℚ) : ℚ := 1/4 * minv + 3/4 * maxv

/-- The threshold computed while processing an (already negated) sample
value `c` in state `s`, after the extrema update. -/
def thresholdAt (s : DecoderState) (c : ℚ) : ℚ :=
  thresholdOf (updMin s.min_value c) (updMax s.max_value c)

/-- `rising = self.previous_value < threshold and current_value > threshold`. -/
def rising (prev thr cur : ℚ) : Bool :=
  decide (prev < thr) && decide (cur > thr)

/-- `trigger_offset = (threshold - self.previous_value) / (current_value - self.previous_value) / self.rate`. -/
def triggerOffsetAt (s : DecoderState) (c prev : ℚ) : ℚ :=
  (thresholdAt s c - prev) / (c - prev) / s.rate

/-- `trigger_time = self.samples_since_pulse / self.rate + trigger_offset`. -/
def triggerTimeAt (s : DecoderState) (c prev : ℚ) : ℚ :=
  (s.samples_since_pulse : ℚ) / s.rate + triggerOffsetAt s c prev

/-- `pulse_length = trigger_time - self.pulse_start_time`. -/
def pulseLengthAt (s : DecoderState) (c prev : ℚ) : ℚ :=
  triggerTimeAt s c prev - s.pulse_start_time

/-- `value = pulse_length*1000 - 1.5`. -/
def pulseValue (pl : ℚ) : ℚ := pl * 1000 - 3/2

/-- `collections.deque(maxlen=m)` append semantics: keep the most recent
`m` appended values, evicting from the left. -/
def dequeAppend (m : ℕ) (xs : List ℚ) (v : ℚ) : List ℚ :=
  let ys := xs ++ [v]
  ys.drop (ys.length - m)

/-- `self.history[self.channel].append(value)`. -/
def histAppend (hist : List (List ℚ)) (ch : ℕ) (m : ℕ) (v : ℚ) : List (List ℚ) :=
  hist.set ch (dequeAppend m (hist.getD ch []) v)

/-- One iteration of the `for i in range(len(data))` loop body of
`PPMDecoder.feed`, applied to the already negated sample value `c`
(the loop computes `current_value = -data[i]` first; see `step`). -/
def stepCore (s : DecoderState) (c : ℚ) : DecoderState :=
  let minv := updMin s.min_value c
  let maxv := updMax s.max_value c
  let threshold := thresholdOf minv maxv
  match s.previous_value with
  | none =>
      { s with min_value := some minv, max_value := some maxv,
               previous_value := some c }
  | some prev =>
      if rising prev threshold c then
        if pulseLengthAt s c prev > s.start_pulse_length then
          { s with min_value := some minv, max_value := some maxv,
                   channel := 0,
                   pulse_start_time := triggerOffsetAt s c prev,
                   samples_since_pulse := 1,
                   previous_value := some c }
        else
          { s with min_value := some minv, max_value := some maxv,
                   channel := s.channel + 1,
                   pulse_start_time := triggerTimeAt s c prev,
                   history := if s.channel < 6 then
                       histAppend s.history s.channel s.average_length
                         (pulseValue (pulseLengthAt s c prev))
                     else s.history,
                   samples_since_pulse := s.samples_since_pulse + 1,
                   previous_value := some c }
      else
        { s with min_value := some minv, max_value := some maxv,
                 samples_since_pulse := s.samples_since_pulse + 1,
                 previous_value := some c }

/-- `current_value = -data[i]`: the raw sample is negated before any use. -/
def stepCurrent (x : ℤ) : ℚ := -(x : ℚ)

/-- Processing of one raw sample `x` of the window: negate, then run the
loop body. -/
def step (s : DecoderState) (x : ℤ) : DecoderState :=
  stepCore s (stepCurrent x)

/-- A variant of the per-sample processing that consumes the raw sample
without negation, for comparison with `step`. -/
def stepPos (s : DecoderState) (x : ℤ) : DecoderState :=
  stepCore s ((x : ℚ))

/-- The whole sample loop of `feed` over one window. -/
def processWindow (s : DecoderState) (data : List ℤ) : DecoderState :=
  data.foldl step s

/-- Python `int(q)`: truncation toward zero. -/
def ratTrunc (q : ℚ) : ℤ := q.num.tdiv (q.den : ℤ)

/-- `sum(values)/len(values)` (line 202). -/
def meanOf (vals : List ℚ) : ℚ := vals.sum / (vals.length : ℚ)

/-- The joystick value emitted for one channel: `value = 0`, then
`if len(values) > 0: value = int(sum(values)/len(values) * 512)`. -/
def channelValue (vals : List ℚ) : ℤ :=
  if 0 < vals.length then ratTrunc (meanOf vals * 512) else 0

/-- The sequence of uinput actions issued at the end of every `feed`
call: `for ch, values in self.history.items(): self.ev.write(EV_ABS,
self.mapping[ch], value)` over the six fixed channels (axis codes
ABS_X=0, ABS_Y=1, ABS_Z=2, ABS_THROTTLE=6, ABS_RUDDER=7, ABS_MISC=40),
followed by `self.ev.syn()`. -/
def feedEvents (s : DecoderState) : List Event :=
  [Event.write 0 (channelValue (s.history.getD 0 [])),
   Event.write 1 (channelValue (s.history.getD 1 [])),
   Event.write 2 (channelValue (s.history.getD 2 [])),
   Event.write 6 (channelValue (s.history.getD 3 [])),
   Event.write 7 (channelValue (s.history.getD 4 [])),
   Event.write 40 (channelValue (s.history.getD 5 []))] ++ [Event.syn]

/-- One `feed` call: run the sample loop over the window, then emit the
joystick updates and the sync. -/
def feed (s : DecoderState) (data : List ℤ) : DecoderState × List Event :=
  (processWindow s data, feedEvents (processWindow s data))

/-- Repeated sequential `feed` calls, keeping only the decoder state. -/
def feedSeq (s : DecoderState) (ws : List (List ℤ)) : DecoderState :=
  ws.foldl (fun st w => (feed st w).1) s

/-- The state built by `PPMDecoder.__init__`: extrema at their infinite
sentinels, channel 0, no previous sample, `start_pulse_length = 2.0/1000`,
six empty deques. -/
def initState (rate : ℚ) (average_length : ℕ) : DecoderState :=
  { rate := rate, min_value := none, max_value := none, channel := 0,
    previous_value := none, pulse_start_time := 0, samples_since_pulse := 0,
    start_pulse_length := 2/1000, average_length := average_length,
    history := [[], [], [], [], [], []] }

/-- `PPMDecoder(rate, average_length)` as a fallible constructor: the
only value check performed anywhere in `__init__` is the one raised by
`collections.deque(maxlen=...)` for a negative maxlen; no validation of
the sample rate or of a zero averaging length exists. -/
def mkDecoder (rate : ℚ) (average_length : ℤ) : Except String DecoderState :=
  if average_length < 0 then Except.error "maxlen must be non-negative"
  else Except.ok (initState rate average_length.toNat)

/-- Whether an event is the frame-commit (`syn`) call. -/
def isSyn : Event → Bool
  | Event.syn => true
  | _ => false

/-- Number of frame commits in an emitted event sequence. -/
def synCount (es : List Event) : ℕ := es.countP isSyn

/-- A window of three identical samples: it contains no threshold
crossing, hence no edge and no frame marker. -/
def noMarkerWindow : List ℤ := [0, 0, 0]

/-- A synthetic PPM frame at rate 2000: five low samples, a rising edge
(the 2.875 ms gap is a frame marker), then two channel pulses of exactly
1.5 ms each (three sample periods between rising edges). -/
def rawFrame : List ℤ := [0, 0, 0, 0, 0, 0, -100, 0, 0, -100, 0, 0, -100]

/-- Flat silence of 2001 samples: at rate 2000 this lasts 1.0005 s, far
longer than any PPM frame period. -/
def silentWindow : List ℤ := List.replicate 2001 0

/-- Decoder state after feeding `rawFrame` from a fresh decoder. -/
def s1C2 : DecoderState := (feed (initState 2000 1) rawFrame).1

/-- A state that has seen one sample (extrema populated). -/
def c3w : DecoderState := step (initState 2000 1) (-3)

/-- Decoder state just before the final rising edge of `rawFrame`
completes a 1.5 ms channel pulse for channel 0. -/
def c6w : DecoderState := processWindow (initState 2000 1) [0, 0, 0, 0, 0, 0, -100, 0, 0]

/-- Decoder state just before the rising edge that is recognized as a
frame marker. -/
def c5w : DecoderState := processWindow (initState 2000 1) [0, 0, 0, 0, 0, 0]

/-- A state whose last (negated) sample was 0, used to feed flat
silence at the same level. -/
def c2w : DecoderState := step (initState 2000 1) 0


/- ------------------------------------------------------------------
Helper lemmas: structural facts about one step, flat-signal behaviour,
and concrete evaluations of the states defined above.
------------------------------------------------------------------ -/

theorem stepCore_min_value (s : DecoderState) (c : ℚ) :
    (stepCore s c).min_value = some (updMin s.min_value c) := by
  unfold stepCore
  cases h : s.previous_value
  · simp
  · simp only []
    split <;> first | rfl | (split <;> rfl)

theorem stepCore_max_value (s : DecoderState) (c : ℚ) :
    (stepCore s c).max_value = some (updMax s.max_value c) := by
  unfold stepCore
  cases h : s.previous_value
  · simp
  · simp only []
    split <;> first | rfl | (split <;> rfl)

theorem rising_self (v thr : ℚ) : rising v thr v = false := by
  by_cases h : v < thr
  · have h2 : ¬ v > thr := lt_asymm h
    simp [rising, h, h2]
  · simp [rising, h]

theorem stepCore_flat (s : DecoderState) (c : ℚ) (h : s.previous_value = some c) :
    (stepCore s c).channel = s.channel ∧
    (stepCore s c).history = s.history ∧
    (stepCore s c).previous_value = some c := by
  simp [stepCore, h, rising_self]

theorem processWindow_flat (c : ℤ) :
    ∀ (n : ℕ) (s : DecoderState), s.previous_value = some (stepCurrent c) →
    (processWindow s (List.replicate n c)).channel = s.channel ∧
    (processWindow s (List.replicate n c)).history = s.history ∧
    (processWindow s (List.replicate n c)).previous_value = some (stepCurrent c) := by
  intro n
  induction n with
  | zero => exact fun s h => ⟨rfl, rfl, h⟩
  | succ k ih =>
      intro s h
      have hs := stepCore_flat s (stepCurrent c) h
      have hrec := ih (step s c) hs.2.2
      have hsplit : processWindow s (List.replicate (k + 1) c)
          = processWindow (step s c) (List.replicate k c) := by
        rw [List.replicate_succ]
        rfl
      rw [hsplit]
      exact ⟨hrec.1.trans hs.1, hrec.2.1.trans hs.2.1, hrec.2.2⟩

theorem synCount_feedEvents (s : DecoderState) : synCount (feedEvents s) = 1 := rfl

theorem feed_fst (s : DecoderState) (d : List ℤ) : (feed s d).1 = processWindow s d := rfl

theorem processWindow_cons (s : DecoderState) (x : ℤ) (d : List ℤ) :
    processWindow s (x :: d) = processWindow (step s x) d := rfl

theorem noMarker_eval : processWindow (initState 2000 1) noMarkerWindow =
    { rate := 2000, min_value := some 0, max_value := some 0, channel := 0,
      previous_value := some 0, pulse_start_time := 0, samples_since_pulse := 2,
      start_pulse_length := 2/1000, average_length := 1,
      history := [[], [], [], [], [], []] } := by
  norm_num [processWindow, noMarkerWindow, List.foldl_cons, List.foldl_nil, step, stepCore,
    stepCurrent, updMin, updMax, thresholdOf, rising, initState, min_def, max_def]

theorem s1C2_eval : s1C2 =
    { rate := 2000, min_value := some 0, max_value := some 100, channel := 2,
      previous_value := some 100, pulse_start_time := 27/8000, samples_since_pulse := 7,
      start_pulse_length := 2/1000, average_length := 1,
      history := [[0], [0], [], [], [], []] } := by
  show processWindow (initState 2000 1) rawFrame = _
  norm_num [processWindow, rawFrame, List.foldl_cons, List.foldl_nil, step, stepCore,
    stepCurrent, updMin, updMax, thresholdOf, rising, triggerOffsetAt, triggerTimeAt,
    pulseLengthAt, thresholdAt, pulseValue, histAppend, dequeAppend, List.getD, List.set,
    initState, min_def, max_def]

theorem stepSilence_eval : step s1C2 0 =
    { rate := 2000, min_value := some 0, max_value := some 100, channel := 2,
      previous_value := some 0, pulse_start_time := 27/8000, samples_since_pulse := 8,
      start_pulse_length := 2/1000, average_length := 1,
      history := [[0], [0], [], [], [], []] } := by
  rw [s1C2_eval]
  norm_num [step, stepCore, stepCurrent, updMin, updMax, thresholdOf, rising,
    min_def, max_def]

theorem c5w_eval : c5w =
    { rate := 2000, min_value := some 0, max_value := some 0, channel := 0,
      previous_value := some 0, pulse_start_time := 0, samples_since_pulse := 5,
      start_pulse_length := 2/1000, average_length := 1,
      history := [[], [], [], [], [], []] } := by
  show processWindow (initState 2000 1) [0, 0, 0, 0, 0, 0] = _
  norm_num [processWindow, List.foldl_cons, List.foldl_nil, step, stepCore,
    stepCurrent, updMin, updMax, thresholdOf, rising, initState, min_def, max_def]

theorem c6w_eval : c6w =
    { rate := 2000, min_value := some 0, max_value := some 100, channel := 0,
      previous_value := some 0, pulse_start_time := 3/8000, samples_since_pulse := 3,
      start_pulse_length := 2/1000, average_length := 1,
      history := [[], [], [], [], [], []] } := by
  show processWindow (initState 2000 1) [0, 0, 0, 0, 0, 0, -100, 0, 0] = _
  norm_num [processWindow, List.foldl_cons, List.foldl_nil, step, stepCore,
    stepCurrent, updMin, updMax, thresholdOf, rising, triggerOffsetAt, triggerTimeAt,
    pulseLengthAt, thresholdAt, pulseValue, histAppend, dequeAppend, List.getD, List.set,
    initState, min_def, max_def]

theorem c2w_eval : c2w =
    { rate := 2000, min_value := some 0, max_value := some 0, channel := 0,
      previous_value := some 0, pulse_start_time := 0, samples_since_pulse := 0,
      start_pulse_length := 2/1000, average_length := 1,
      history := [[], [], [], [], [], []] } := by
  show step (initState 2000 1) 0 = _
  norm_num [step, stepCore, stepCurrent, updMin, updMax, thresholdOf, rising,
    initState, min_def, max_def]

theorem c3w_eval : c3w =
    { rate := 2000, min_value := some 3, max_value := some 3, channel := 0,
      previous_value := some 3, pulse_start_time := 0, samples_since_pulse := 0,
      start_pulse_length := 2/1000, average_length := 1,
      history := [[], [], [], [], [], []] } := by
  show step (initState 2000 1) (-3) = _
  norm_num [step, stepCore, stepCurrent, updMin, updMax, thresholdOf, rising,
    initState, min_def, max_def]

/- ------------------------------------------------------------------
Claim theorems
------------------------------------------------------------------ -/

/-- C1 (counterexample): a feed call whose window contains no frame
marker (three identical samples: no threshold crossing, no edge, no
marker; the decoder never left its initial condition) nevertheless
produces a full snapshot: six axis writes plus one commit/sync. -/
theorem c1_counterexample :
    synCount (feed (initState 2000 1) noMarkerWindow).2 = 1 ∧
    (feed (initState 2000 1) noMarkerWindow).2.length = 7 ∧
    (feed (initState 2000 1) noMarkerWindow).2 ≠ [] ∧
    (feed (initState 2000 1) noMarkerWindow).1.channel = 0 ∧
    (feed (initState 2000 1) noMarkerWindow).1.min_value = some 0 ∧
    (feed (initState 2000 1) noMarkerWindow).1.max_value = some 0 := by
  refine ⟨rfl, rfl, ?_, ?_, ?_, ?_⟩
  · show feedEvents (processWindow (initState 2000 1) noMarkerWindow) ≠ []
    simp [feedEvents]
  · show (processWindow (initState 2000 1) noMarkerWindow).channel = 0
    rw [noMarker_eval]
  · show (processWindow (initState 2000 1) noMarkerWindow).min_value = some 0
    rw [noMarker_eval]
  · show (processWindow (initState 2000 1) noMarkerWindow).max_value = some 0
    rw [noMarker_eval]

/-- C1 (amended): the decoder hands a complete channel-to-value
snapshot (one write per mapped channel, in mapping order, plus exactly
one commit/sync) to the external sink exactly once per `feed` call,
for every state and every window — regardless of whether the window
contains a frame marker, with no notion of a SYNCED state. -/
theorem c1_amended_snapshot_every_feed (s : DecoderState) (data : List ℤ) :
    (feed s data).2 = feedEvents (processWindow s data) ∧
    synCount (feed s data).2 = 1 ∧
    (feed s data).2.length = 7 ∧
    (feed s data).2 =
      [Event.write 0 (channelValue ((processWindow s data).history.getD 0 [])),
       Event.write 1 (channelValue ((processWindow s data).history.getD 1 [])),
       Event.write 2 (channelValue ((processWindow s data).history.getD 2 [])),
       Event.write 6 (channelValue ((processWindow s data).history.getD 3 [])),
       Event.write 7 (channelValue ((processWindow s data).history.getD 4 [])),
       Event.write 40 (channelValue ((processWindow s data).history.getD 5 [])),
       Event.syn] :=
  ⟨rfl, rfl, rfl, rfl⟩

/-- C2 (counterexample): `rawFrame` is a valid frame (one recognized
marker, then two recognized 1.5 ms channel pulses: the channel index
ends at 2 and channels 0 and 1 each hold one recorded value), and
feeding 2001 further samples of flat silence (1.0005 s at rate 2000,
beyond any aging period) leaves the channel index and the smoothing
history completely unchanged — no transition to an unsynced state
occurs — while the silence-only feed call still emits a full frame
snapshot. -/
theorem c2_counterexample :
    s1C2.channel = 2 ∧
    s1C2.history = [[0], [0], [], [], [], []] ∧
    (feed s1C2 silentWindow).1.channel = 2 ∧
    (feed s1C2 silentWindow).1.history = s1C2.history ∧
    synCount (feed s1C2 silentWindow).2 = 1 := by
  have hstep : (step s1C2 0).previous_value = some (stepCurrent 0) := by
    rw [stepSilence_eval]
    norm_num [stepCurrent]
  have hflat := processWindow_flat 0 2000 (step s1C2 0) hstep
  have hsplit : (feed s1C2 silentWindow).1
      = processWindow (step s1C2 0) (List.replicate 2000 0) := by
    rw [feed_fst, silentWindow, show (2001 : ℕ) = 2000 + 1 from rfl,
        List.replicate_succ, processWindow_cons]
  refine ⟨?_, ?_, ?_, ?_, rfl⟩
  · rw [s1C2_eval]
  · rw [s1C2_eval]
  · rw [hsplit, hflat.1, stepSilence_eval]
  · rw [hsplit, hflat.2.1, stepSilence_eval, s1C2_eval]

/-- C2 (amended): the decoder has no loss-of-sync mechanism: from any
state whose last processed (negated) sample is `stepCurrent c`, feeding
flat silence at that level for any length `n` leaves the channel index
and the smoothing history unchanged, and the feed call still emits
exactly one full frame snapshot. -/
theorem c2_amended_flat_silence (s : DecoderState) (c : ℤ) (n : ℕ)
    (h : s.previous_value = some (stepCurrent c)) :
    (feed s (List.replicate n c)).1.channel = s.channel ∧
    (feed s (List.replicate n c)).1.history = s.history ∧
    synCount (feed s (List.replicate n c)).2 = 1 := by
  have hf := processWindow_flat c n s h
  exact ⟨hf.1, hf.2.1, rfl⟩

/-- C2 (witness): the amended theorem applied to a concrete state and
five samples of flat silence. -/
theorem c2_amended_flat_silence_witness :
    (feed c2w (List.replicate 5 0)).1.channel = c2w.channel ∧
    (feed c2w (List.replicate 5 0)).1.history = c2w.history ∧
    synCount (feed c2w (List.replicate 5 0)).2 = 1 :=
  c2_amended_flat_silence c2w 0 5 (by rw [c2w_eval]; norm_num [stepCurrent])

/-- C3: after processing each sample, the running minimum never
increases and the running maximum never decreases; the threshold the
step computes equals 0.25·min + 0.75·max of the updated extrema, and it
lies between them (at least one sample having been seen: the extrema
are populated). -/
theorem c3_adaptive_threshold (s : DecoderState) (x : ℤ) (m M : ℚ)
    (hm : s.min_value = some m) (hM : s.max_value = some M) :
    (step s x).min_value = some (min m (stepCurrent x)) ∧
    (step s x).max_value = some (max M (stepCurrent x)) ∧
    min m (stepCurrent x) ≤ m ∧
    M ≤ max M (stepCurrent x) ∧
    thresholdAt s (stepCurrent x) =
      1/4 * min m (stepCurrent x) + 3/4 * max M (stepCurrent x) ∧
    min m (stepCurrent x) ≤ thresholdAt s (stepCurrent x) ∧
    thresholdAt s (stepCurrent x) ≤ max M (stepCurrent x) := by
  have hmin : (step s x).min_value = some (min m (stepCurrent x)) := by
    rw [step, stepCore_min_value, hm]
    rfl
  have hmax : (step s x).max_value = some (max M (stepCurrent x)) := by
    rw [step, stepCore_max_value, hM]
    rfl
  have hthr : thresholdAt s (stepCurrent x) =
      1/4 * min m (stepCurrent x) + 3/4 * max M (stepCurrent x) := by
    rw [thresholdAt, hm, hM]
    rfl
  have hab : min m (stepCurrent x) ≤ max M (stepCurrent x) :=
    (min_le_right m (stepCurrent x)).trans (le_max_right M (stepCurrent x))
  refine ⟨hmin, hmax, min_le_left m _, le_max_left M _, hthr, ?_, ?_⟩
  · rw [hthr]
    linarith
  · rw [hthr]
    linarith

/-- C3 (witness): the threshold properties at a concrete state that has
seen one sample (extrema = 3) and a new sample of −5. -/
theorem c3_adaptive_threshold_witness :
    (step c3w (-5)).min_value = some (min 3 (stepCurrent (-5))) ∧
    (step c3w (-5)).max_value = some (max 3 (stepCurrent (-5))) ∧
    min 3 (stepCurrent (-5)) ≤ (3 : ℚ) ∧
    (3 : ℚ) ≤ max 3 (stepCurrent (-5)) ∧
    thresholdAt c3w (stepCurrent (-5)) =
      1/4 * min 3 (stepCurrent (-5)) + 3/4 * max 3 (stepCurrent (-5)) ∧
    min 3 (stepCurrent (-5)) ≤ thresholdAt c3w (stepCurrent (-5)) ∧
    thresholdAt c3w (stepCurrent (-5)) ≤ max 3 (stepCurrent (-5)) :=
  c3_adaptive_threshold c3w (-5) 3 3 (by rw [c3w_eval]) (by rw [c3w_eval])

/-- C4 (counterexample): the edge detector uses a strict comparison on
the previous sample: with previous = threshold = 75 and current = 100,
the claimed condition (previous ≤ threshold and current > threshold)
holds, yet the code classifies the transition as not rising. -/
theorem c4_counterexample :
    rising 75 75 100 = false ∧ (75 : ℚ) ≤ 75 ∧ (100 : ℚ) > 75 := by
  refine ⟨?_, by norm_num, by norm_num⟩
  have h1 : ¬ (75 : ℚ) < 75 := by norm_num
  simp [rising, h1]

/-- C4 (amended): the transition is classified as rising if and only if
previous < threshold strictly and current > threshold; a transition
whose previous sample exactly equals the threshold is not rising. -/
theorem c4_amended_strict_rising (prev thr cur : ℚ) :
    rising prev thr cur = true ↔ (prev < thr ∧ cur > thr) := by
  simp [rising]

/-- C5: the channel index is set to 0 by every recognized frame marker
(rising edge whose inter-edge interval exceeds the marker threshold),
is incremented by exactly one by every recognized channel pulse —
with no condition on the channel index being in the configured
mapping — and is unchanged by samples that produce no rising edge. -/
theorem c5_channel_indexing (s : DecoderState) (x : ℤ) :
    (s.previous_value = none → (step s x).channel = s.channel) ∧
    (∀ prev, s.previous_value = some prev →
      (rising prev (thresholdAt s (stepCurrent x)) (stepCurrent x) = false →
        (step s x).channel = s.channel) ∧
      (rising prev (thresholdAt s (stepCurrent x)) (stepCurrent x) = true →
        (pulseLengthAt s (stepCurrent x) prev > s.start_pulse_length →
          (step s x).channel = 0) ∧
        (¬ pulseLengthAt s (stepCurrent x) prev > s.start_pulse_length →
          (step s x).channel = s.channel + 1))) := by
  constructor
  · intro h
    simp [step, stepCore, h]
  · intro prev hp
    constructor
    · intro hr
      rw [thresholdAt] at hr
      simp [step, stepCore, hp, hr]
    · intro hr
      rw [thresholdAt] at hr
      constructor
      · intro hpl
        simp [step, stepCore, hp, hr, hpl]
      · intro hpl
        simp [step, stepCore, hp, hr, hpl]

/-- C5 (witness): the rising edge closing the 2.875 ms gap of
`rawFrame` is recognized as a frame marker and resets the channel
index to 0. -/
theorem c5_channel_indexing_witness : (step c5w (-100)).channel = 0 := by
  have h := c5_channel_indexing c5w (-100)
  refine ((h.2 0 (by rw [c5w_eval])).2 ?_).1 ?_
  · rw [c5w_eval]
    norm_num [rising, thresholdAt, stepCurrent, updMin, updMax, thresholdOf,
      min_def, max_def]
  · rw [c5w_eval]
    norm_num [pulseLengthAt, triggerTimeAt, triggerOffsetAt, thresholdAt, stepCurrent,
      updMin, updMax, thresholdOf, min_def, max_def]

/-- C6: a recognized channel pulse for a mapped channel appends
`pulseValue` of the measured width to that channel's history; the
stored value scaled by the output gain 512 equals
(duration − 0.0015 s) × 1000 × 512, and a pulse of exactly 1.5 ms
(3/2000 s) maps to exactly 0, the midpoint of the [−512, 512] output
range. -/
theorem c6_pulse_value_mapping (d : ℚ) (s : DecoderState) (x : ℤ) (prev : ℚ)
    (h1 : s.previous_value = some prev)
    (h2 : rising prev (thresholdAt s (stepCurrent x)) (stepCurrent x) = true)
    (h3 : ¬ pulseLengthAt s (stepCurrent x) prev > s.start_pulse_length)
    (h4 : s.channel < 6) :
    (step s x).history = histAppend s.history s.channel s.average_length
        (pulseValue (pulseLengthAt s (stepCurrent x) prev)) ∧
    pulseValue d * 512 = (d - 3/2000) * 1000 * 512 ∧
    pulseValue (3/2000) = 0 ∧
    channelValue [pulseValue (3/2000)] = 0 := by
  have hv : pulseValue (3/2000) = 0 := by
    rw [pulseValue]
    norm_num
  refine ⟨?_, by rw [pulseValue]; ring, hv, ?_⟩
  · rw [thresholdAt] at h2
    simp [step, stepCore, h1, h2, h3, h4]
  · rw [hv]
    norm_num [channelValue, meanOf, ratTrunc]

/-- C6 (witness): the 1.5 ms channel pulse completed by the final edge
of the truncated `rawFrame` at rate 2000, evaluated concretely. -/
theorem c6_pulse_value_mapping_witness :
    (step c6w (-100)).history = histAppend c6w.history c6w.channel c6w.average_length
        (pulseValue (pulseLengthAt c6w (stepCurrent (-100)) 0)) ∧
    pulseValue (3/2000) * 512 = ((3/2000 : ℚ) - 3/2000) * 1000 * 512 ∧
    pulseValue (3/2000) = 0 ∧
    channelValue [pulseValue (3/2000)] = 0 := by
  refine c6_pulse_value_mapping (3/2000) c6w (-100) 0 (by rw [c6w_eval]) ?_ ?_ ?_
  · rw [c6w_eval]
    norm_num [rising, thresholdAt, stepCurrent, updMin, updMax, thresholdOf,
      min_def, max_def]
  · rw [c6w_eval]
    norm_num [pulseLengthAt, triggerTimeAt, triggerOffsetAt, thresholdAt, stepCurrent,
      updMin, updMax, thresholdOf, min_def, max_def]
  · rw [c6w_eval]
    norm_num

/-- C7: the per-channel smoothing history is a bounded FIFO: an append
never yields more than the configured length, appending to a full
buffer evicts the oldest entry, and the value emitted for a channel is
derived from the arithmetic mean of the buffered values (scaled by the
512 axis gain and truncated to an integer), with the default 0 for an
empty buffer. -/
theorem c7_smoothing_fifo (m : ℕ) (xs : List ℚ) (v : ℚ) (vals : List ℚ)
    (hm : 0 < m) (hfull : xs.length = m) (hv : vals ≠ []) :
    (∀ zs : List ℚ, (dequeAppend m zs v).length ≤ m) ∧
    dequeAppend m xs v = xs.tail ++ [v] ∧
    channelValue vals = ratTrunc (meanOf vals * 512) ∧
    meanOf vals = vals.sum / (vals.length : ℚ) ∧
    channelValue [] = 0 := by
  refine ⟨?_, ?_, ?_, rfl, rfl⟩
  · intro zs
    simp only [dequeAppend, List.length_drop, List.length_append, List.length_singleton,
      List.length_nil]
    omega
  · rcases xs with _ | ⟨a, t⟩
    · rw [List.length_nil] at hfull
      omega
    · simp only [dequeAppend]
      have hlen : (a :: (t ++ [v])).length - m = 1 := by
        simp only [List.length_cons, List.length_append, List.length_singleton,
          List.length_nil]
        simp only [List.length_cons] at hfull
        omega
      rw [show (a :: t ++ [v]) = a :: (t ++ [v]) from rfl, hlen]
      rfl
  · have hlen : 0 < vals.length := List.length_pos.mpr hv
    simp [channelValue, hlen]

/-- C7 (witness): appending to a full two-element buffer evicts the
oldest entry, and the value of a concrete buffer is the truncated
scaled mean. -/
theorem c7_smoothing_fifo_witness :
    (∀ zs : List ℚ, (dequeAppend 2 zs 5).length ≤ 2) ∧
    dequeAppend 2 [1, 2] 5 = List.tail [1, 2] ++ [5] ∧
    channelValue [3, 5] = ratTrunc (meanOf [3, 5] * 512) ∧
    meanOf [3, 5] = List.sum [3, 5] / ((List.length [3, 5] : ℕ) : ℚ) ∧
    channelValue [] = 0 :=
  c7_smoothing_fifo 2 [1, 2] 5 [3, 5] (by norm_num) (by norm_num) (by simp)

/-- C8: window-partition invariance — feeding any list of windows one
by one through successive `feed` calls yields exactly the same final
decoder state (hence the same final per-channel values) and the same
final emission as feeding their concatenation in one single `feed`
call.  This holds for every sample train, in particular for every
valid PPM-shaped one. -/
theorem c8_window_partition_invariance (ws : List (List ℤ)) (s : DecoderState) :
    feedSeq s ws = (feed s ws.flatten).1 ∧
    feedEvents (feedSeq s ws) = (feed s ws.flatten).2 := by
  have hstate : feedSeq s ws = (feed s ws.flatten).1 := by
    induction ws generalizing s with
    | nil => rfl
    | cons w rest ih =>
        show feedSeq (processWindow s w) rest = _
        rw [ih (processWindow s w)]
        show processWindow (processWindow s w) rest.flatten
            = processWindow s (w :: rest).flatten
        simp [processWindow, List.foldl_append]
  refine ⟨hstate, ?_⟩
  rw [hstate]
  rfl

/-- C9 (counterexample): constructing a decoder with sample rate 0
(non-positive) and a zero-length averaging window succeeds and returns
a decoder instance — no validation error is raised at construction,
so `feed` is reachable on such an instance. -/
theorem c9_counterexample : mkDecoder 0 0 = Except.ok (initState 0 0) := rfl

/-- C9 (amended): construction performs no configuration validation:
every sample rate (including zero and negative rates) together with
every non-negative averaging length (including zero) is accepted and
produces a decoder; the only construction-time failure anywhere in
`__init__` is the deque's rejection of a negative maxlen. -/
theorem c9_amended_no_validation (rate : ℚ) (avg : ℤ) (h : 0 ≤ avg) :
    mkDecoder rate avg = Except.ok (initState rate avg.toNat) ∧
    mkDecoder rate (-1) = Except.error "maxlen must be non-negative" := by
  constructor
  · rw [mkDecoder, if_neg (not_lt.mpr h)]
  · rfl

/-- C9 (witness): the amended theorem at rate 48000 and averaging
length 1. -/
theorem c9_amended_no_validation_witness :
    mkDecoder 48000 1 = Except.ok (initState 48000 (1 : ℤ).toNat) ∧
    mkDecoder 48000 (-1) = Except.error "maxlen must be non-negative" :=
  c9_amended_no_validation 48000 1 (by norm_num)

/-- C10: every sample is negated before any processing: the step on a
raw sample `x` coincides with the un-negated variant run on `−x`, the
value entering the extrema/threshold/edge logic is `−x`, and a rising
edge of the processed signal corresponds to the raw amplitude falling
below the negated threshold. -/
theorem c10_negated_input (s : DecoderState) (x : ℤ) (prev thr : ℚ) :
    step s x = stepPos s (-x) ∧
    stepCurrent x = -(x : ℚ) ∧
    (rising prev thr (stepCurrent x) = true ↔ prev < thr ∧ (x : ℚ) < -thr) := by
  refine ⟨?_, rfl, ?_⟩
  · rw [step, stepPos, stepCurrent]
    norm_num
  · rw [stepCurrent]
    simp only [rising, Bool.and_eq_true, decide_eq_true_eq, gt_iff_lt, lt_neg]

end PPMAdapter
